import Mathlib

/-!
Shallow embedding of the robustmq meta-service raft storage core
(`src/meta/src/storage/raft_core.rs`) and the driver's ready cycle
(`src/meta/src/raft/raft.rs`).

The RocksDB column family `meta` is modelled by explicit fields of
`CoreState`, one per fixed key (`metasrv_first_index`, `metasrv_last_index`,
`metasrv_hard_state`, `metasrv_conf_state`, `metasrv_uncommit_index`) plus an
association list for the family of entry keys `metasrv_entry_{i}`.  All six
key forms are pairwise distinct strings in the source, so separate fields are
a faithful rendering of the key/value store.  `u64` values are modelled as
`Nat`; none of the arithmetic in the modelled paths can overflow for the
index ranges the storage maintains.  A Rust `panic!` (or `.unwrap()` of
`None`) is modelled by returning `none`; a `RaftResult` error by `Except`.
-/

namespace RobustMQ

/-- `raft::eraftpb::HardState`: `{term, vote, commit}`, all `u64`.
`HardState::default()` is all zeroes. -/
structure HardState where
  term : Nat
  vote : Nat
  commit : Nat
deriving Repr, DecidableEq

/-- `raft::prelude::ConfState` (the parts the storage core touches):
voter and learner node-id lists.  Default is empty. -/
structure ConfState where
  voters : List Nat
  learners : List Nat
deriving Repr, DecidableEq

/-- `raft::prelude::SnapshotMetadata`: `{conf_state, index, term}`. -/
structure SnapshotMetadata where
  index : Nat
  term : Nat
  conf_state : ConfState
deriving Repr, DecidableEq

/-- `raft::prelude::Snapshot`: metadata plus opaque data bytes. -/
structure Snapshot where
  metadata : SnapshotMetadata
  data : List Nat
deriving Repr, DecidableEq

/-- Entry type tag of `raft::prelude::Entry`. -/
inductive EntryKind where
  | Normal
  | ConfChange
deriving Repr, DecidableEq

/-- `raft::prelude::Entry`: one record of the replicated log. -/
structure Entry where
  index : Nat
  term : Nat
  entry_type : EntryKind
  data : List Nat
deriving Repr, DecidableEq

/-- The storage error the core returns (`raft::StorageError`); only
`SnapshotOutOfDate` is produced by the modelled code. -/
inductive StorageErr where
  | SnapshotOutOfDate
deriving Repr, DecidableEq

/-- Lookup in the `metasrv_entry_{i}` key family (association list keyed by
the entry index).  Mirrors `rds.read` of a single key. -/
def kvLookup : List (Nat × Entry) → Nat → Option Entry
  | [], _ => none
  | (k2, v) :: rest, k => if k2 = k then some v else kvLookup rest k

/-- Removal of a key from the association list (used to keep at most one
binding per key, matching a key/value store). -/
def kvErase : List (Nat × Entry) → Nat → List (Nat × Entry)
  | [], _ => []
  | (k2, v) :: rest, k => if k2 = k then kvErase rest k else (k2, v) :: kvErase rest k

/-- Point write in the `metasrv_entry_{i}` key family: RocksDB `put`
overwrites the previous value under the same key. -/
def kvInsert (m : List (Nat × Entry)) (k : Nat) (v : Entry) : List (Nat × Entry) :=
  (k, v) :: kvErase m k

/-- The in-memory uncommitted-index map `HashMap<u64, i8>`:
`insert` overwrites the marker stored under the key. -/
def umInsert (m : List (Nat × Int)) (k : Nat) (v : Int) : List (Nat × Int) :=
  (k, v) :: m.filter (fun p => p.1 != k)

/-- `HashMap::contains_key` on the uncommitted-index map. -/
def umContains (m : List (Nat × Int)) (k : Nat) : Bool :=
  m.any (fun p => p.1 == k)

/-- `HashMap::remove` on the uncommitted-index map (dropping the value). -/
def umRemove (m : List (Nat × Int)) (k : Nat) : List (Nat × Int) :=
  m.filter (fun p => p.1 != k)

/-- The state of `RaftRocksDBStorageCore` together with the `meta` column
family it persists to.  The `*_rec` fields are the persisted records
(`none` = key absent); `snapshot_metadata` and `uncommit_index` are the
in-memory fields of the Rust struct. -/
structure CoreState where
  first_index_rec : Option Nat
  last_index_rec : Option Nat
  hard_state_rec : Option HardState
  conf_state_rec : Option ConfState
  entry_recs : List (Nat × Entry)
  uncommit_rec : Option (List (Nat × Int))
  snapshot_metadata : SnapshotMetadata
  uncommit_index : List (Nat × Int)
  trigger_snap_unavailable : Bool
deriving Repr, DecidableEq

/-- A fresh storage over an empty key/value store, with the given in-memory
snapshot metadata (as after `RaftRocksDBStorageCore::new` on an empty DB,
or after the caller installed a bootstrap snapshot metadata). -/
def initState (meta : SnapshotMetadata) : CoreState :=
  { first_index_rec := none
    last_index_rec := none
    hard_state_rec := none
    conf_state_rec := none
    entry_recs := []
    uncommit_rec := none
    snapshot_metadata := meta
    uncommit_index := []
    trigger_snap_unavailable := false }

/-- `hard_state()`: read the `metasrv_hard_state` record, defaulting to
`HardState::default()` when absent. -/
def hard_state (s : CoreState) : HardState :=
  match s.hard_state_rec with
  | none => { term := 0, vote := 0, commit := 0 }
  | some hs => hs

/-- `conf_state()`: read the `metasrv_conf_state` record, defaulting to
`ConfState::default()` when absent. -/
def conf_state (s : CoreState) : ConfState :=
  match s.conf_state_rec with
  | none => { voters := [], learners := [] }
  | some cs => cs

/-- `first_index()`: the `metasrv_first_index` record, or
`snapshot_metadata.index + 1` when the record is absent. -/
def first_index (s : CoreState) : Nat :=
  match s.first_index_rec with
  | none => s.snapshot_metadata.index + 1
  | some v => v

/-- `last_index()`: the `metasrv_last_index` record, or
`snapshot_metadata.index` when the record is absent. -/
def last_index (s : CoreState) : Nat :=
  match s.last_index_rec with
  | none => s.snapshot_metadata.index
  | some v => v

/-- `entry_by_idx(idx)`: read the `metasrv_entry_{idx}` record. -/
def entry_by_idx (s : CoreState) (idx : Nat) : Option Entry :=
  kvLookup s.entry_recs idx

/-- `save_hard_state(hs)`: write the `metasrv_hard_state` record. -/
def save_hard_state (s : CoreState) (hs : HardState) : CoreState :=
  { s with hard_state_rec := some hs }

/-- `save_conf_state(cs)`: write the `metasrv_conf_state` record. -/
def save_conf_state (s : CoreState) (cs : ConfState) : CoreState :=
  { s with conf_state_rec := some cs }

/-- `save_uncommit_index()`: serialize the in-memory uncommitted map into
the `metasrv_uncommit_index` record. -/
def save_uncommit_index (s : CoreState) : CoreState :=
  { s with uncommit_rec := some s.uncommit_index }

/-- `set_hard_state_commit(commit)`: read the hard state, overwrite its
commit field, persist it. -/
def set_hard_state_commit (s : CoreState) (commit : Nat) : CoreState :=
  save_hard_state s { hard_state s with commit := commit }

/-- The body of `append`'s `for entry in entrys` loop: write the entry
record, overwrite the `metasrv_last_index` record with this entry's index,
insert the index into the in-memory uncommitted map. -/
def appendLoop (s : CoreState) (l : List Entry) : CoreState :=
  match l with
  | [] => s
  | e :: rest =>
      appendLoop
        { s with
          entry_recs := kvInsert s.entry_recs e.index e
          last_index_rec := some e.index
          uncommit_index := umInsert s.uncommit_index e.index 1 }
        rest

/-- `append(entrys)`: empty input is a no-op; otherwise panic (modelled as
`none`) when `first_index() > entrys[0].index` (overwrite of compacted
logs) or `last_index() + 1 < entrys[0].index` (non-contiguous log); else
run the write loop and persist the uncommitted map. -/
def append (s : CoreState) (entrys : List Entry) : Option CoreState :=
  match entrys with
  | [] => some s
  | e :: rest =>
      if first_index s > e.index then
        none
      else if last_index s + 1 < e.index then
        none
      else
        some (save_uncommit_index (appendLoop s (e :: rest)))

/-- `commmit_index(idx)` (source spelling): `uncommit_index.remove(&idx)`
followed by `.unwrap()` — panics (`none`) when the index is absent — then
persists the map. -/
def commmit_index (s : CoreState) (idx : Nat) : Option CoreState :=
  if umContains s.uncommit_index idx then
    some (save_uncommit_index { s with uncommit_index := umRemove s.uncommit_index idx })
  else
    none

/-- `truncate_entry()`: reads `first_index()` and `last_index()` first,
then deletes the `metasrv_first_index` and `metasrv_last_index` records,
then deletes the entry records for every index in the closed range
`[current_first_index, current_last_index]` (the `for idx in cf..=cl`
loop, rendered as a filter over the entry key family). -/
def truncate_entry (s : CoreState) : CoreState :=
  let current_first_index := first_index s
  let current_last_index := last_index s
  { s with
    first_index_rec := none
    last_index_rec := none
    entry_recs :=
      s.entry_recs.filter
        (fun p => !(decide (current_first_index ≤ p.1) && decide (p.1 ≤ current_last_index))) }

/-- `apply_snapshot(snapshot)`: reject with `SnapshotOutOfDate` when
`first_index() > snapshot.metadata.index`, leaving the state untouched.
Otherwise: set the in-memory `snapshot_metadata` to the snapshot's metadata
(a clone taken before `take_conf_state`, so it keeps the conf state); build
a hard state from `HardState::default()` with `term = max(current.term,
meta.term)` and `commit = meta.index` (so `vote` stays 0) and persist it;
run `truncate_entry` (note: after `snapshot_metadata` was already updated);
persist the snapshot's conf state.  Mirrors `&mut self` + `RaftResult` by
returning the state together with an `Except`. -/
def apply_snapshot (s : CoreState) (snapshot : Snapshot) : CoreState × Except StorageErr Unit :=
  let meta := snapshot.metadata
  let index := meta.index
  if first_index s > index then
    (s, Except.error StorageErr.SnapshotOutOfDate)
  else
    let s1 := { s with snapshot_metadata := meta }
    let cur_hs := hard_state s1
    let hs : HardState := { term := max cur_hs.term meta.term, vote := 0, commit := index }
    let s2 := save_hard_state s1 hs
    let s3 := truncate_entry s2
    let s4 := save_conf_state s3 meta.conf_state
    (s4, Except.ok ())

/-- `snapshot()`: builds `Snapshot::default()`, reads the hard state, takes
`meta = sns.mut_metadata()` (still all-default, so `meta.index = 0`), and
immediately does `self.entry_by_idx(meta.index).unwrap()` — i.e. unwraps
the entry record at index 0 before `meta.index` has been assigned; the
unwrap of an absent record is a panic (`none`).  Then `meta.index` is set
to `hard_state.commit` and `meta.term` by comparing with
`snapshot_metadata.index`: equal → `snapshot_metadata.term`; greater → the
term of the entry fetched above; less → panic. -/
def snapshot (s : CoreState) : Option Snapshot :=
  let hs := hard_state s
  match entry_by_idx s 0 with
  | none => none
  | some entry =>
      let cs := conf_state s
      let idx := hs.commit
      if idx = s.snapshot_metadata.index then
        some { metadata := { index := idx, term := s.snapshot_metadata.term, conf_state := cs }
               data := [] }
      else if s.snapshot_metadata.index < idx then
        some { metadata := { index := idx, term := entry.term, conf_state := cs }
               data := [] }
      else
        none

/-- The part of `MetaConfig` the raft driver reads when building the raft
`Config` (only `node_id` is relevant to that claim). -/
structure MetaConfig where
  node_id : Nat
deriving Repr, DecidableEq

/-- The fields of `raft::Config` that `build_config` sets explicitly. -/
structure RaftConfig where
  id : Nat
  election_tick : Nat
  heartbeat_tick : Nat
  max_size_per_msg : Nat
  max_inflight_msgs : Nat
  applied : Nat
deriving Repr, DecidableEq

/-- `MetaRaft::build_config`: the literal struct the source builds.  The
node id is the hard-coded literal `1` (the `MetaConfig` argument is not
read), and `max_size_per_msg` is the literal `1024 * 1024 * 1024`. -/
def build_config (_self : MetaConfig) : RaftConfig :=
  { id := 1
    election_tick := 10
    heartbeat_tick := 3
    max_size_per_msg := 1024 * 1024 * 1024
    max_inflight_msgs := 256
    applied := 0 }

/-- Outbound raft protocol messages are opaque to the driver. -/
abbrev Msg := Nat

/-- The `Ready` batch the consensus library hands to `on_ready`. -/
structure Ready where
  messages : List Msg
  snapshot : Snapshot
  committed_entries : List Entry
  entries : List Entry
  hs : Option HardState
  persisted_messages : List Msg
deriving Repr, DecidableEq

/-- The `LightReady` returned by `advance(ready)`. -/
structure LightReady where
  commit_index : Option Nat
  messages : List Msg
  committed_entries : List Entry
deriving Repr, DecidableEq

/-- `MetaRaft::handle_committed_entries`: iterates the entries; for each
non-empty entry it calls `handle_config_change` or `handle_normal`, both of
which have empty bodies, and it never calls `commmit_index`; so it has no
effect on storage. -/
def handle_committed_entries (_entrys : List Entry) : Unit := ()

/-- `MetaRaft::on_ready`, one ready cycle over the storage `s`, the ready
batch `r` (with `hasReady = raft_node.has_ready()`) and the light-ready
`lr` returned by `advance`.  The result is the storage after the cycle and
the messages handed to the outbound sink (`send_message`), in order.  In
the source every storage write of the cycle is commented out:
`apply_snapshot` (raft.rs line 124), `append` (line 133), `set_hard_state`
(line 139) and `set_hard_state_comit` (line 154); so the storage component
passes through unchanged while `ready.messages`, `ready.persisted_messages`
and `light_rd.messages` are all sent. -/
def on_ready (s : CoreState) (hasReady : Bool) (r : Ready) (lr : LightReady) :
    CoreState × List Msg :=
  if !hasReady then
    (s, [])
  else
    let sent1 := r.messages
    let _ := handle_committed_entries r.committed_entries
    let sent2 := sent1 ++ r.persisted_messages
    let sent3 := sent2 ++ lr.messages
    let _ := handle_committed_entries lr.committed_entries
    (s, sent3)

/-! Concrete inputs used to evaluate the operations. -/

/-- Empty conf state. -/
def emptyCS : ConfState := { voters := [], learners := [] }

/-- C1 scenario: storage compacted through index 4 (so `first_index = 5`),
holding entries at 5 and 6 with term 1, `last_index` record 6. -/
def c1Entry5 : Entry := { index := 5, term := 1, entry_type := EntryKind.Normal, data := [10] }

def c1Entry6 : Entry := { index := 6, term := 1, entry_type := EntryKind.Normal, data := [11] }

def c1State : CoreState :=
  { initState { index := 4, term := 1, conf_state := emptyCS } with
    last_index_rec := some 6
    entry_recs := [(5, c1Entry5), (6, c1Entry6)] }

/-- C1: the conflicting entry: same index 5, different term 2. -/
def c1NewEntry : Entry := { index := 5, term := 2, entry_type := EntryKind.Normal, data := [12] }

/-- C2 scenario: a fresh storage and one ready batch carrying an entry, a
hard state and a persisted message. -/
def c2State : CoreState := initState { index := 0, term := 0, conf_state := emptyCS }

def c2Entry : Entry := { index := 1, term := 1, entry_type := EntryKind.Normal, data := [1] }

def c2Ready : Ready :=
  { messages := [11]
    snapshot := { metadata := { index := 0, term := 0, conf_state := emptyCS }, data := [] }
    committed_entries := []
    entries := [c2Entry]
    hs := some { term := 2, vote := 0, commit := 0 }
    persisted_messages := [12] }

def c2Light : LightReady :=
  { commit_index := some 1
    messages := [13]
    committed_entries := [c2Entry] }

/-- C5 scenario entries `{i=2,t=1}, {i=3,t=1}, {i=4,t=1}`. -/
def c5Entry2 : Entry := { index := 2, term := 1, entry_type := EntryKind.Normal, data := [] }

def c5Entry3 : Entry := { index := 3, term := 1, entry_type := EntryKind.Normal, data := [] }

def c5Entry4 : Entry := { index := 4, term := 1, entry_type := EntryKind.Normal, data := [] }

/-- C5 initial storage: snapshot metadata at index 1. -/
def c5State0 : CoreState := initState { index := 1, term := 1, conf_state := emptyCS }

/-- C5 snapshot to apply: `index = 3, term = 1`. -/
def c5Snap : Snapshot := { metadata := { index := 3, term := 1, conf_state := emptyCS }, data := [] }

/-- C5 pipeline: append the three entries, then apply the snapshot,
keeping the resulting state (`none` would mean a panic on the way). -/
def c5Final : Option CoreState :=
  (append c5State0 [c5Entry2, c5Entry3, c5Entry4]).map (fun s => (apply_snapshot s c5Snap).1)

/-- C7 scenario: fresh storage, one appended entry, then a snapshot at that
entry's index. -/
def c7State0 : CoreState := initState { index := 0, term := 0, conf_state := emptyCS }

def c7Entry : Entry := { index := 1, term := 1, entry_type := EntryKind.Normal, data := [7] }

def c7Snap : Snapshot := { metadata := { index := 1, term := 1, conf_state := emptyCS }, data := [] }

/-- C7 pipeline: `append [{i=1,t=1}]` then `apply_snapshot(index=1,term=1)`. -/
def c7Final : Option (CoreState × Except StorageErr Unit) :=
  (append c7State0 [c7Entry]).map (fun s => apply_snapshot s c7Snap)

/-- C8 scenario: snapshot metadata at index 1, hard state commit 2, entry
stored at index 2, nothing stored at index 0. -/
def c8Entry : Entry := { index := 2, term := 1, entry_type := EntryKind.Normal, data := [] }

def c8State : CoreState :=
  { initState { index := 1, term := 1, conf_state := emptyCS } with
    last_index_rec := some 2
    hard_state_rec := some { term := 1, vote := 0, commit := 2 }
    entry_recs := [(2, c8Entry)] }

/-- C1: `append` performs no truncation of a divergent suffix.  Starting
from storage holding `{i=5,t=1}` and `{i=6,t=1}` (first_index 5, last_index
6), appending the conflicting `[{i=5,t=2}]` succeeds, the last newly
appended index is 5, yet the old entry at index 6 — the divergent suffix
beyond the new tail — is still stored afterwards, contradicting the claim
that all entries with index ≥ 5 are deleted before the write. -/
theorem append_keeps_divergent_suffix :
    (append c1State [c1NewEntry]).map last_index = some 5 ∧
    (append c1State [c1NewEntry]).bind (fun t => entry_by_idx t 6) = some c1Entry6 := by
  decide

/-- C2: in `on_ready` every durability write is skipped — the
`apply_snapshot`, `append`, `set_hard_state` and `set_hard_state_comit`
calls are commented out in the source — while the persisted messages are
still handed to the outbound sink.  On a ready batch carrying the entry
`{i=1,t=1}`, a hard state with term 2 and persisted message `12`, and a
light ready carrying commit index 1, the cycle returns the storage
unchanged: the entry is not readable, the hard state is still the default
(term 0, commit 0), yet messages `[11, 12, 13]` were all sent. -/
theorem on_ready_skips_durability :
    (on_ready c2State true c2Ready c2Light).1 = c2State ∧
    entry_by_idx (on_ready c2State true c2Ready c2Light).1 1 = none ∧
    hard_state (on_ready c2State true c2Ready c2Light).1 = { term := 0, vote := 0, commit := 0 } ∧
    (on_ready c2State true c2Ready c2Light).2 = [11, 12, 13] := by
  decide

/-- C5 (counterexample): after appending `{i=2},{i=3},{i=4}` (term 1) over
a snapshot at index 1 and applying a snapshot with `index=3, term=1`, it is
NOT the case that `last_index = 4` with the entry at index 4 still
retrievable: the claim's expected outcome is false on the code. -/
theorem append_then_snapshot_claim_false :
    ¬ (c5Final.map last_index = some 4 ∧
        c5Final.bind (fun t => entry_by_idx t 4) = some c5Entry4) := by
  decide

/-- C5 (amended): the sequence actually yields `first_index = 4` but
`last_index = 3`; the entry at index 4 is deleted (because
`apply_snapshot` updates `snapshot_metadata` before calling
`truncate_entry`, so the truncation range starts at the new snapshot index
+ 1 = 4), while the entries at indices 2 and 3 remain physically stored
below `first_index`. -/
theorem append_then_snapshot_actual :
    c5Final.map first_index = some 4 ∧
    c5Final.map last_index = some 3 ∧
    c5Final.bind (fun t => entry_by_idx t 4) = none ∧
    c5Final.bind (fun t => entry_by_idx t 2) = some c5Entry2 ∧
    c5Final.bind (fun t => entry_by_idx t 3) = some c5Entry3 := by
  decide

instance : DecidableEq (Except StorageErr Unit) := fun a b =>
  match a, b with
  | Except.ok (), Except.ok () => Decidable.isTrue rfl
  | Except.ok (), Except.error _ => Decidable.isFalse (fun h => Except.noConfusion h)
  | Except.error _, Except.ok () => Decidable.isFalse (fun h => Except.noConfusion h)
  | Except.error StorageErr.SnapshotOutOfDate, Except.error StorageErr.SnapshotOutOfDate =>
      Decidable.isTrue rfl

/-- C7: `apply_snapshot` never touches the uncommitted map.  After
appending `{i=1,t=1}` (which puts index 1 into the map) and applying a
snapshot at index 1 (accepted, setting `commit = 1`), index 1 — which is at
the snapshot index and not greater than `commit` — is still in the map,
although the set of stored-entry indices greater than `commit = last_index
= 1` is empty. -/
theorem apply_snapshot_leaves_stale_uncommit :
    c7Final.map (fun p => p.2) = some (Except.ok ()) ∧
    c7Final.map (fun p => (hard_state p.1).commit) = some 1 ∧
    c7Final.map (fun p => last_index p.1) = some 1 ∧
    c7Final.map (fun p => umContains p.1.uncommit_index 1) = some true := by
  decide

/-- C8: `snapshot()` reads the entry at `meta.index` while `meta` is still
the default metadata, i.e. it unwraps `entry_by_idx(0)`.  On a state with
`commit = 2 ≥ snapshot_metadata.index = 1` and the entry at index 2 stored
(but, as always, nothing at index 0) the unwrap hits `None` and the call
panics (`none`), instead of returning the snapshot the claim describes. -/
theorem snapshot_panics_on_entry_zero :
    c8State.snapshot_metadata.index ≤ (hard_state c8State).commit ∧
    entry_by_idx c8State 0 = none ∧
    snapshot c8State = none := by
  decide

/-- C9: `build_config` hard-codes the node id to the literal 1 — the
configuration's `node_id` is never read — and sets `max_size_per_msg` to
`1024 * 1024 * 1024` (1 GiB), not 1 MiB.  Election tick 10, heartbeat tick
3 and 256 in-flight messages do match the claim.  Evaluated at a config
with `node_id = 2`. -/
theorem build_config_hardcoded_values :
    (build_config { node_id := 2 }).id = 1 ∧
    (build_config { node_id := 2 }).id ≠ 2 ∧
    (build_config { node_id := 2 }).max_size_per_msg = 1073741824 ∧
    (build_config { node_id := 2 }).max_size_per_msg ≠ 1048576 ∧
    (build_config { node_id := 2 }).election_tick = 10 ∧
    (build_config { node_id := 2 }).heartbeat_tick = 3 ∧
    (build_config { node_id := 2 }).max_inflight_msgs = 256 := by
  decide

/-- C3: when the snapshot's metadata index is strictly less than the
storage's first index, `apply_snapshot` returns the `SnapshotOutOfDate`
error and returns the state exactly as it was — so snapshot metadata, hard
state, conf state, stored entries and the first/last indices are all
unchanged. -/
theorem apply_snapshot_out_of_date (s : CoreState) (snap : Snapshot)
    (h : snap.metadata.index < first_index s) :
    apply_snapshot s snap = (s, Except.error StorageErr.SnapshotOutOfDate) := by
  simp only [apply_snapshot, gt_iff_lt, if_pos h]

/-- C3 witness state: compacted through index 9, so `first_index = 10`. -/
def c3State : CoreState := initState { index := 9, term := 2, conf_state := emptyCS }

/-- C3 witness snapshot: stale index 5. -/
def c3Snap : Snapshot := { metadata := { index := 5, term := 1, conf_state := emptyCS }, data := [] }

theorem apply_snapshot_out_of_date_witness :
    c3Snap.metadata.index < first_index c3State ∧
    apply_snapshot c3State c3Snap = (c3State, Except.error StorageErr.SnapshotOutOfDate) :=
  ⟨by decide, apply_snapshot_out_of_date c3State c3Snap (by decide)⟩

/-- C4: when `apply_snapshot` accepts the snapshot (its metadata index is
at least the storage's first index), afterwards the in-memory snapshot
metadata equals the snapshot's metadata, the persisted hard state is
`{term = max(old term, snapshot term), vote = 0, commit = snapshot
index}`, the persisted conf state equals the snapshot's conf state, and
`first_index()` returns snapshot index + 1 (the first-index record was
deleted by `truncate_entry`, so the read falls back to the new snapshot
metadata). -/
theorem apply_snapshot_accepted_state (s : CoreState) (snap : Snapshot)
    (h : first_index s ≤ snap.metadata.index) :
    (apply_snapshot s snap).1.snapshot_metadata = snap.metadata ∧
    hard_state (apply_snapshot s snap).1 =
      { term := max (hard_state s).term snap.metadata.term, vote := 0,
        commit := snap.metadata.index } ∧
    conf_state (apply_snapshot s snap).1 = snap.metadata.conf_state ∧
    first_index (apply_snapshot s snap).1 = snap.metadata.index + 1 := by
  have h1 : ¬ first_index s > snap.metadata.index := not_lt.mpr h
  simp only [apply_snapshot, gt_iff_lt, if_neg h1]
  exact ⟨rfl, rfl, rfl, rfl⟩

/-- C4 witness state: snapshot metadata at index 1 (`first_index = 2`),
with a previously persisted hard state `{term = 3, vote = 7, commit = 2}`. -/
def c4State : CoreState :=
  { initState { index := 1, term := 1, conf_state := emptyCS } with
    last_index_rec := some 2
    hard_state_rec := some { term := 3, vote := 7, commit := 2 }
    entry_recs := [(2, c8Entry)] }

/-- C4 witness snapshot: index 5, term 2, voters `[1, 2]`. -/
def c4Snap : Snapshot :=
  { metadata := { index := 5, term := 2, conf_state := { voters := [1, 2], learners := [] } }
    data := [] }

theorem apply_snapshot_accepted_state_witness :
    first_index c4State ≤ c4Snap.metadata.index ∧
    ((apply_snapshot c4State c4Snap).1.snapshot_metadata = c4Snap.metadata ∧
      hard_state (apply_snapshot c4State c4Snap).1 =
        { term := max (hard_state c4State).term c4Snap.metadata.term, vote := 0,
          commit := c4Snap.metadata.index } ∧
      conf_state (apply_snapshot c4State c4Snap).1 = c4Snap.metadata.conf_state ∧
      first_index (apply_snapshot c4State c4Snap).1 = c4Snap.metadata.index + 1) :=
  ⟨by decide, apply_snapshot_accepted_state c4State c4Snap (by decide)⟩

/-- C10: an accepted `apply_snapshot` rebuilds the hard state from
`HardState::default()` and only sets `term` and `commit`, so the persisted
`vote` afterwards is 0 whatever was persisted before. -/
theorem apply_snapshot_resets_vote (s : CoreState) (snap : Snapshot)
    (h : first_index s ≤ snap.metadata.index) :
    (hard_state (apply_snapshot s snap).1).vote = 0 := by
  have h1 : ¬ first_index s > snap.metadata.index := not_lt.mpr h
  simp only [apply_snapshot, gt_iff_lt, if_neg h1]
  rfl

/-- C10 witness state: a persisted hard state with `vote = 7`. -/
def c10State : CoreState :=
  { initState { index := 0, term := 1, conf_state := emptyCS } with
    hard_state_rec := some { term := 4, vote := 7, commit := 3 } }

/-- C10 witness snapshot. -/
def c10Snap : Snapshot :=
  { metadata := { index := 3, term := 4, conf_state := emptyCS }, data := [] }

theorem apply_snapshot_resets_vote_witness :
    first_index c10State ≤ c10Snap.metadata.index ∧
    (hard_state (apply_snapshot c10State c10Snap).1).vote = 0 :=
  ⟨by decide, apply_snapshot_resets_vote c10State c10Snap (by decide)⟩

/-! Lemmas about the entry key family and `append`'s write loop. -/

/-- A point write is read back under its own key. -/
theorem kvLookup_insert_self (m : List (Nat × Entry)) (k : Nat) (v : Entry) :
    kvLookup (kvInsert m k v) k = some v := by
  rw [kvInsert, kvLookup, if_pos rfl]

/-- Erasing one key from the association list leaves every other key's
lookup unchanged. -/
theorem kvLookup_erase_of_ne (m : List (Nat × Entry)) (k i : Nat) (h : i ≠ k) :
    kvLookup (kvErase m k) i = kvLookup m i := by
  induction m with
  | nil => rfl
  | cons a tl ih =>
      obtain ⟨k2, v⟩ := a
      by_cases hk : k2 = k
      · have hne : ¬ k2 = i := fun he => h (he ▸ hk)
        rw [kvErase, if_pos hk, ih, kvLookup, if_neg hne]
      · by_cases hi : k2 = i
        · rw [kvErase, if_neg hk, kvLookup, if_pos hi, kvLookup, if_pos hi]
        · rw [kvErase, if_neg hk, kvLookup, if_neg hi, kvLookup, if_neg hi, ih]

/-- A point write leaves every other key unchanged. -/
theorem kvLookup_insert_of_ne (m : List (Nat × Entry)) (k i : Nat) (v : Entry) (h : i ≠ k) :
    kvLookup (kvInsert m k v) i = kvLookup m i := by
  rw [kvInsert, kvLookup, if_neg (fun he => h he.symm)]
  exact kvLookup_erase_of_ne m k i h

/-- The write loop of `append` does not touch entry keys whose index does
not occur in the list being written. -/
theorem entry_by_idx_appendLoop_notin (s : CoreState) (l : List Entry) (i : Nat)
    (h : i ∉ l.map Entry.index) :
    entry_by_idx (appendLoop s l) i = entry_by_idx s i := by
  induction l generalizing s with
  | nil => rfl
  | cons e rest ih =>
      simp only [List.map_cons, List.mem_cons, not_or] at h
      rw [appendLoop, ih _ h.2]
      show kvLookup (kvInsert s.entry_recs e.index e) i = kvLookup s.entry_recs i
      exact kvLookup_insert_of_ne s.entry_recs e.index i e h.1

/-- When the indices in the list are pairwise distinct, every entry written
by the loop is read back at its own index. -/
theorem entry_by_idx_appendLoop_mem (s : CoreState) (l : List Entry)
    (hnd : (l.map Entry.index).Nodup) :
    ∀ f ∈ l, entry_by_idx (appendLoop s l) f.index = some f := by
  induction l generalizing s with
  | nil => intro f hf; cases hf
  | cons e rest ih =>
      simp only [List.map_cons, List.nodup_cons] at hnd
      intro f hf
      rcases List.mem_cons.mp hf with rfl | hfr
      · rw [appendLoop, entry_by_idx_appendLoop_notin _ _ _ hnd.1]
        exact kvLookup_insert_self s.entry_recs f.index f
      · rw [appendLoop]
        exact ih _ hnd.2 f hfr

/-- After the write loop, the `metasrv_last_index` record holds the index
of the last entry of the (non-empty) list. -/
theorem appendLoop_last_index_rec (s : CoreState) (e : Entry) (rest : List Entry) :
    (appendLoop s (e :: rest)).last_index_rec = some (rest.getLastD e).index := by
  induction rest generalizing s e with
  | nil => rfl
  | cons g tl ih =>
      rw [appendLoop, ih, List.getLastD_cons]

/-- C6 counterexample input: a fresh log (first_index 1, last_index 0). -/
def c6DupState : CoreState := initState { index := 0, term := 0, conf_state := emptyCS }

/-- C6 counterexample: two entries sharing index 1. -/
def c6DupA : Entry := { index := 1, term := 1, entry_type := EntryKind.Normal, data := [1] }

def c6DupB : Entry := { index := 1, term := 2, entry_type := EntryKind.Normal, data := [2] }

/-- C6 (counterexample): for the non-empty list `[{i=1,t=1}, {i=1,t=2}]`
the precondition `first_index ≤ entries[0].index ≤ last_index + 1` holds
and `append` does not panic, but the first appended entry is NOT readable
at its index afterwards — the second write overwrote it — so "every
appended entry is subsequently readable at its index" fails as stated. -/
theorem append_readback_counterexample :
    first_index c6DupState ≤ c6DupA.index ∧
    c6DupA.index ≤ last_index c6DupState + 1 ∧
    (append c6DupState [c6DupA, c6DupB]).isSome = true ∧
    ¬ ((append c6DupState [c6DupA, c6DupB]).bind
        (fun t => entry_by_idx t c6DupA.index) = some c6DupA) := by
  decide

/-- C6 (amended): for every non-empty entry list, `append` panics exactly
when the first entry's index is below `first_index` or above
`last_index + 1`; under that precondition alone, `append` does not panic
and the stored last index is updated to the last entry's index, and when
additionally the entries' indices are pairwise distinct, every appended
entry is subsequently readable at its index. -/
theorem append_contract (s : CoreState) (e : Entry) (rest : List Entry) :
    (append s (e :: rest) = none ↔
      e.index < first_index s ∨ last_index s + 1 < e.index) ∧
    (first_index s ≤ e.index →
      e.index ≤ last_index s + 1 →
      ∃ t, append s (e :: rest) = some t ∧
        last_index t = (rest.getLastD e).index ∧
        (((e :: rest).map Entry.index).Nodup →
          ∀ f ∈ e :: rest, entry_by_idx t f.index = some f)) := by
  constructor
  · unfold append
    by_cases h1 : first_index s > e.index
    · simp [h1]
    · by_cases h2 : last_index s + 1 < e.index
      · simp [h1, h2]
      · simp [h1, h2]
  · intro hpre1 hpre2
    have h1 : ¬ first_index s > e.index := not_lt.mpr hpre1
    have h2 : ¬ last_index s + 1 < e.index := not_lt.mpr hpre2
    refine ⟨save_uncommit_index (appendLoop s (e :: rest)), ?_, ?_, ?_⟩
    · simp only [append]
      rw [if_neg h1, if_neg h2]
    · show last_index _ = _
      unfold last_index save_uncommit_index
      rw [appendLoop_last_index_rec s e rest]
    · intro hnd f hf
      exact entry_by_idx_appendLoop_mem s (e :: rest) hnd f hf

/-- C6 witness inputs: a fresh log and two entries with distinct indices
1 and 2. -/
def c6wE1 : Entry := { index := 1, term := 1, entry_type := EntryKind.Normal, data := [5] }

def c6wE2 : Entry := { index := 2, term := 1, entry_type := EntryKind.Normal, data := [6] }

def c6wState : CoreState := initState { index := 0, term := 0, conf_state := emptyCS }

theorem append_contract_witness :
    (first_index c6wState ≤ c6wE1.index ∧
      c6wE1.index ≤ last_index c6wState + 1) ∧
    ((append c6wState [c6wE1, c6wE2] = none ↔
        c6wE1.index < first_index c6wState ∨ last_index c6wState + 1 < c6wE1.index) ∧
      ∃ t, append c6wState [c6wE1, c6wE2] = some t ∧
        last_index t = ([c6wE2].getLastD c6wE1).index ∧
        (([c6wE1, c6wE2].map Entry.index).Nodup →
          ∀ f ∈ [c6wE1, c6wE2], entry_by_idx t f.index = some f)) :=
  ⟨⟨by decide, by decide⟩,
    ⟨(append_contract c6wState c6wE1 [c6wE2]).1,
      (append_contract c6wState c6wE1 [c6wE2]).2 (by decide) (by decide)⟩⟩

end RobustMQ
